import Mathlib

/-!
Shallow embedding of the gRPC user service (internal/server/server.go) of
go-gRPC-server-client: the `DistributedLocker` abstraction, its two drivers
(`RedsyncLocker`, `EtcdLocker`), and the five `UserServer` handlers
(Create/Get/List/Update/Delete).

External calls (lock acquisition, `ExecContext`, `QueryRowContext` + `Scan`,
`QueryContext` + row scans, `RowsAffected`, `LastInsertId`) are resolved by an
oracle supplied as an argument; every handler returns its Go result
(`*Response, error`, modelled as `Except String Response`) together with the
trace of external events it performed, in order.  `defer unlock()` is modelled
by the unlock event appearing at the end of the trace on every return path
that follows a successful acquire, exactly as Go's defer runs it.
-/

namespace GoGrpcServer

/-- `pb.User` message: id/age are int32, timestamps are formatted strings. -/
structure User where
  id : Int
  name : String
  email : String
  age : Int
  createdAt : String
  updatedAt : String
deriving Repr, DecidableEq

/-- Go `int64` → `int32` conversion (two's-complement wrap), used at
`int32(id)` in CreateUser and `int32(len(users))` in ListUsers. -/
def int32cast (n : Int) : Int :=
  (n + 2 ^ 31) % 2 ^ 32 - 2 ^ 31

/-- Outcome of `row.Scan(...)` after a `QueryRowContext`: Go's
`sql.ErrNoRows`, some other scan error, or a successfully scanned user. -/
inductive ScanResult where
  | noRows
  | scanErr (msg : String)
  | found (u : User)
deriving Repr, DecidableEq

/-- The message of Go's `sql.ErrNoRows`, surfaced verbatim when a handler
returns that error without special-casing it. -/
def sqlErrNoRows : String := "sql: no rows in result set"

instance {ε α : Type} [DecidableEq ε] [DecidableEq α] : DecidableEq (Except ε α) := fun a b =>
  match a, b with
  | .ok x, .ok y =>
      if h : x = y then .isTrue (by rw [h]) else .isFalse (by simp [h])
  | .error x, .error y =>
      if h : x = y then .isTrue (by rw [h]) else .isFalse (by simp [h])
  | .ok _, .error _ => .isFalse (by simp)
  | .error _, .ok _ => .isFalse (by simp)

/-- Outcome of one `ExecContext` call together with the method outcomes of the
`sql.Result` it returns.  When `execErr` is `some e`, Go returns `(nil, e)`
and the handler never touches the result, so the other fields are unread. -/
structure ExecOutcome where
  execErr : Option String
  rowsAffected : Except String Int
  lastInsertId : Except String Int
deriving Repr, DecidableEq

/-- Oracle for the storage calls a single handler invocation makes.  Each
handler performs at most one `ExecContext`, at most one
`QueryRowContext`+`Scan`, and at most one `QueryContext` (whose row set is a
list of per-row scan outcomes, consumed by the `rows.Next()` loop). -/
structure DbOracle where
  exec : ExecOutcome
  queryRow : ScanResult
  query : Except String (List (Except String User))
deriving Repr, DecidableEq

/-- One external event performed by a handler, in program order.  Lock events
carry the user id passed to `LockUser`; storage events carry the SQL text. -/
inductive Event where
  | lockOk (uid : Int)
  | lockFail (uid : Int)
  | unlock (uid : Int)
  | dbExec (q : String)
  | dbQueryRow (q : String)
  | dbQuery (q : String)
deriving Repr, DecidableEq

def Event.isUnlock : Event → Bool
  | .unlock _ => true
  | _ => false

def Event.isStorage : Event → Bool
  | .dbExec _ => true
  | .dbQueryRow _ => true
  | .dbQuery _ => true
  | _ => false

def Event.isLockCall : Event → Bool
  | .lockOk _ => true
  | .lockFail _ => true
  | _ => false

/-- SQL text of the point read shared by GetUser and UpdateUser's re-read. -/
def selectOneQuery : String :=
  "SELECT id, name, email, age, created_at, updated_at FROM users WHERE id = ?"

def selectAllQuery : String :=
  "SELECT id, name, email, age, created_at, updated_at FROM users"

def insertQuery : String :=
  "INSERT INTO users (name, email, age, created_at, updated_at) VALUES (?, ?, ?, ?, ?)"

def updateQuery : String :=
  "UPDATE users SET name=?, email=?, age=?, updated_at=? WHERE id=?"

def deleteQuery : String :=
  "DELETE FROM users WHERE id=?"

/-- Request messages (only the fields the handlers read). -/
structure GetUserRequest where
  id : Int
deriving Repr, DecidableEq

structure CreateUserRequest where
  name : String
  email : String
  age : Int
deriving Repr, DecidableEq

structure UpdateUserRequest where
  id : Int
  name : String
  email : String
  age : Int
deriving Repr, DecidableEq

structure DeleteUserRequest where
  id : Int
deriving Repr, DecidableEq

structure ListUsersRequest where
  page : Int
  limit : Int
deriving Repr, DecidableEq

/-- Response messages. -/
structure GetUserResponse where
  user : Option User
  success : Bool
  message : String
deriving Repr, DecidableEq

structure CreateUserResponse where
  user : Option User
  success : Bool
  message : String
deriving Repr, DecidableEq

structure UpdateUserResponse where
  user : Option User
  success : Bool
  message : String
deriving Repr, DecidableEq

structure DeleteUserResponse where
  success : Bool
  message : String
deriving Repr, DecidableEq

structure ListUsersResponse where
  users : List User
  total : Int
  success : Bool
  message : String
deriving Repr, DecidableEq

/-- Outcome of `s.locker.LockUser(ctx, req.Id)`: an unlock handle (`Unit`; its
invocation is the `Event.unlock` trace entry) or the driver's error. -/
abbrev LockOutcome := Except String Unit

/-- `UserServer.GetUser`.  Lock first; on failure wrap the cause.  On success
`defer unlock()`, then `QueryRowContext` + `Scan`; `sql.ErrNoRows` becomes a
non-error not-found response, any other scan error is returned as the error. -/
def getUser (lock : LockOutcome) (db : DbOracle) (req : GetUserRequest) :
    Except String GetUserResponse × List Event :=
  match lock with
  | .error e => (.error ("failed to acquire lock: " ++ e), [.lockFail req.id])
  | .ok _ =>
    match db.queryRow with
    | .noRows =>
        (.ok ⟨none, false, "User not found"⟩,
         [.lockOk req.id, .dbQueryRow selectOneQuery, .unlock req.id])
    | .scanErr e =>
        (.error e,
         [.lockOk req.id, .dbQueryRow selectOneQuery, .unlock req.id])
    | .found u =>
        (.ok ⟨some u, true, "User found successfully"⟩,
         [.lockOk req.id, .dbQueryRow selectOneQuery, .unlock req.id])

/-- `UserServer.CreateUser`: no lock; one insert; `LastInsertId` for the id;
the response user echoes the request fields with the shared `now` timestamp. -/
def createUser (db : DbOracle) (now : String) (req : CreateUserRequest) :
    Except String CreateUserResponse × List Event :=
  match db.exec.execErr with
  | some e => (.error e, [.dbExec insertQuery])
  | none =>
    match db.exec.lastInsertId with
    | .error e => (.error e, [.dbExec insertQuery])
    | .ok id =>
        (.ok ⟨some ⟨int32cast id, req.name, req.email, req.age, now, now⟩,
              true, "User created successfully"⟩,
         [.dbExec insertQuery])

/-- The `rows.Next()` / `rows.Scan` loop of ListUsers: collects users until a
scan error, which aborts the handler with that error. -/
def scanRows : List (Except String User) → Except String (List User)
  | [] => .ok []
  | .error e :: _ => .error e
  | .ok u :: rest => (scanRows rest).map (fun us => u :: us)

/-- `UserServer.ListUsers`: no lock; a single unpaginated `SELECT`; the
response carries every scanned row and `Total = int32(len(users))`.  The
request's Page and Limit fields are only logged, never used. -/
def listUsers (db : DbOracle) (_req : ListUsersRequest) :
    Except String ListUsersResponse × List Event :=
  match db.query with
  | .error e => (.error e, [.dbQuery selectAllQuery])
  | .ok rows =>
    match scanRows rows with
    | .error e => (.error e, [.dbQuery selectAllQuery])
    | .ok users =>
        (.ok ⟨users, int32cast users.length, true, "Users retrieved successfully"⟩,
         [.dbQuery selectAllQuery])

/-- `UserServer.UpdateUser`: lock, `defer unlock()`, `UPDATE`, then
`RowsAffected`; zero rows is a non-error not-found; otherwise a re-read of the
row (still under the lock) produces the response user, and any re-read failure
(including `sql.ErrNoRows`) is returned as an error. -/
def updateUser (lock : LockOutcome) (db : DbOracle) (req : UpdateUserRequest) :
    Except String UpdateUserResponse × List Event :=
  match lock with
  | .error e => (.error ("failed to acquire lock: " ++ e), [.lockFail req.id])
  | .ok _ =>
    match db.exec.execErr with
    | some e => (.error e, [.lockOk req.id, .dbExec updateQuery, .unlock req.id])
    | none =>
      match db.exec.rowsAffected with
      | .error e => (.error e, [.lockOk req.id, .dbExec updateQuery, .unlock req.id])
      | .ok num =>
        if num = 0 then
          (.ok ⟨none, false, "User not found"⟩,
           [.lockOk req.id, .dbExec updateQuery, .unlock req.id])
        else
          match db.queryRow with
          | .noRows =>
              (.error sqlErrNoRows,
               [.lockOk req.id, .dbExec updateQuery, .dbQueryRow selectOneQuery,
                .unlock req.id])
          | .scanErr e =>
              (.error e,
               [.lockOk req.id, .dbExec updateQuery, .dbQueryRow selectOneQuery,
                .unlock req.id])
          | .found u =>
              (.ok ⟨some u, true, "User updated successfully"⟩,
               [.lockOk req.id, .dbExec updateQuery, .dbQueryRow selectOneQuery,
                .unlock req.id])

/-- `UserServer.DeleteUser`: lock, `defer unlock()`, `DELETE`, then
`RowsAffected`; zero rows is a non-error not-found. -/
def deleteUser (lock : LockOutcome) (db : DbOracle) (req : DeleteUserRequest) :
    Except String DeleteUserResponse × List Event :=
  match lock with
  | .error e => (.error ("failed to acquire lock: " ++ e), [.lockFail req.id])
  | .ok _ =>
    match db.exec.execErr with
    | some e => (.error e, [.lockOk req.id, .dbExec deleteQuery, .unlock req.id])
    | none =>
      match db.exec.rowsAffected with
      | .error e => (.error e, [.lockOk req.id, .dbExec deleteQuery, .unlock req.id])
      | .ok num =>
        if num = 0 then
          (.ok ⟨false, "User not found"⟩,
           [.lockOk req.id, .dbExec deleteQuery, .unlock req.id])
        else
          (.ok ⟨true, "User deleted successfully"⟩,
           [.lockOk req.id, .dbExec deleteQuery, .unlock req.id])

/-! ### Lock backend drivers

`RedsyncLocker.LockUser` and `EtcdLocker.LockUser` with backend-level event
traces.  Backend call outcomes (`mutex.LockContext`, `concurrency.NewSession`,
`mutex.Lock`) are supplied by an oracle; `LockUser` returns the handler-level
`LockOutcome` together with the backend events it performed, and the release
closure is modelled by the backend events it performs when invoked. -/

/-- Backend events of the Redis (Redsync) driver. -/
inductive RedisEvent where
  | mutexLockOk (key : String)
  | mutexLockFail (key : String)
  | mutexUnlock (key : String)
deriving Repr, DecidableEq

/-- Oracle for the Redsync backend: the outcome of `mutex.LockContext(ctx)`. -/
structure RedsyncBackend where
  lockCtx : Except String Unit
deriving Repr, DecidableEq

/-- `fmt.Sprintf("user-lock-%d", userID)`. -/
def redsyncLockKey (uid : Int) : String := "user-lock-" ++ toString uid

/-- `RedsyncLocker.LockUser`: build the key, `NewMutex`, `LockContext`; on
failure return the backend error unwrapped; on success return a handle. -/
def redsyncLockUser (b : RedsyncBackend) (uid : Int) :
    LockOutcome × List RedisEvent :=
  match b.lockCtx with
  | .error e => (.error e, [.mutexLockFail (redsyncLockKey uid)])
  | .ok _ => (.ok (), [.mutexLockOk (redsyncLockKey uid)])

/-- The unlock closure returned by `RedsyncLocker.LockUser`:
`mutex.Unlock()`. -/
def redsyncRelease (uid : Int) : List RedisEvent :=
  [.mutexUnlock (redsyncLockKey uid)]

/-- Backend events of the etcd driver. -/
inductive EtcdEvent where
  | sessionCreateOk
  | sessionCreateFail
  | sessionClose
  | mutexLockOk (key : String)
  | mutexLockFail (key : String)
  | mutexUnlock (key : String)
deriving Repr, DecidableEq

/-- Oracle for the etcd backend: outcomes of `concurrency.NewSession` and
`mutex.Lock(ctx)`. -/
structure EtcdBackend where
  newSession : Except String Unit
  mutexLock : Except String Unit
deriving Repr, DecidableEq

/-- `fmt.Sprintf("/user-lock-%d", userID)`. -/
def etcdLockKey (uid : Int) : String := "/user-lock-" ++ toString uid

/-- `EtcdLocker.LockUser`: open a session; on session failure return the error
with no session to clean up.  Then `NewMutex` + `Lock`; on lock failure close
the session (`sess.Close()`) before returning the error; on success return a
handle owning both session and mutex. -/
def etcdLockUser (b : EtcdBackend) (uid : Int) :
    LockOutcome × List EtcdEvent :=
  match b.newSession with
  | .error e => (.error e, [.sessionCreateFail])
  | .ok _ =>
    match b.mutexLock with
    | .error e =>
        (.error e,
         [.sessionCreateOk, .mutexLockFail (etcdLockKey uid), .sessionClose])
    | .ok _ =>
        (.ok (), [.sessionCreateOk, .mutexLockOk (etcdLockKey uid)])

/-- The unlock closure returned by `EtcdLocker.LockUser`:
`mutex.Unlock(ctx)` then `sess.Close()`, in that order. -/
def etcdRelease (uid : Int) : List EtcdEvent :=
  [.mutexUnlock (etcdLockKey uid), .sessionClose]

/-! ### Health checks

A context is modelled by its remaining deadline budget in milliseconds
(`none` = no deadline); a backend probe by reachability and the round-trip
latency of one request.  `context.WithTimeout(ctx, t)` tightens the budget to
the minimum of the parent's budget and `t`. -/

/-- A lock backend as seen by one health-check round-trip. -/
structure Backend where
  reachable : Bool
  latency : Nat
deriving Repr, DecidableEq

/-- One bounded round-trip against a backend under a deadline budget:
unreachable fails immediately; otherwise it fails iff the round-trip latency
exceeds the budget. -/
def roundTrip (deadline : Option Nat) (b : Backend) : Except String Unit :=
  if b.reachable = false then .error "connection refused"
  else
    match deadline with
    | none => .ok ()
    | some t => if b.latency > t then .error "context deadline exceeded" else .ok ()

/-- `context.WithTimeout(ctx, t)` on the deadline-budget model. -/
def withTimeout (deadline : Option Nat) (t : Nat) : Option Nat :=
  match deadline with
  | none => some t
  | some d => some (min d t)

/-- `RedsyncLocker.HealthCheck`: `l.rdb.Ping(ctx).Err()` — a single ping
under the caller's context, with no driver-imposed timeout. -/
def redsyncHealthCheck (ctxDeadline : Option Nat) (b : Backend) :
    Except String Unit :=
  roundTrip ctxDeadline b

/-- `EtcdLocker.HealthCheck`: wraps the caller's context with a 2-second
timeout, then performs one `Get(ctx, "healthcheck-key")` under it. -/
def etcdHealthCheck (ctxDeadline : Option Nat) (b : Backend) :
    Except String Unit :=
  roundTrip (withTimeout ctxDeadline 2000) b

/-! ### Fixtures for witnesses -/

/-- A concrete user row. -/
def sampleUser : User :=
  ⟨1, "John Doe", "john@example.com", 30,
   "2024-01-01T00:00:00Z", "2024-01-01T00:00:00Z"⟩

/-- A storage oracle in which every call succeeds and the point read finds
`sampleUser`. -/
def sampleDb : DbOracle :=
  ⟨⟨none, .ok 1, .ok 1⟩, .found sampleUser, .ok [.ok sampleUser]⟩

/-- A storage oracle in which the write succeeds but affects zero rows. -/
def zeroRowsDb : DbOracle :=
  ⟨⟨none, .ok 0, .ok 0⟩, .noRows, .ok []⟩

/-- A storage oracle in which `ExecContext` itself fails. -/
def execFailDb : DbOracle :=
  ⟨⟨some "database error", .ok 0, .ok 0⟩, .noRows, .error "database error"⟩

end GoGrpcServer

namespace GoGrpcServer

/-! ### Claim theorems -/

/-- C1: for every GetUser, UpdateUser and DeleteUser request in which lock
acquisition (`LockUser`) succeeds, the returned unlock function runs exactly
once before the handler returns, on every exit path — storage failures,
`RowsAffected` failures, zero-rows and re-read failures included. -/
theorem unlock_called_exactly_once
    (lock : LockOutcome) (db : DbOracle) (g : GetUserRequest)
    (u : UpdateUserRequest) (d : DeleteUserRequest) (h : lock = .ok ()) :
    ((getUser lock db g).2.countP Event.isUnlock = 1) ∧
    ((updateUser lock db u).2.countP Event.isUnlock = 1) ∧
    ((deleteUser lock db d).2.countP Event.isUnlock = 1) := by
  subst h
  rcases db with ⟨⟨execErr, ra, li⟩, qr, q⟩
  refine ⟨?_, ?_, ?_⟩
  · cases qr <;> rfl
  · cases execErr with
    | some e => rfl
    | none =>
      cases ra with
      | error e => rfl
      | ok num =>
        simp only [updateUser]
        split
        · rfl
        · cases qr <;> rfl
  · cases execErr with
    | some e => rfl
    | none =>
      cases ra with
      | error e => rfl
      | ok num =>
        simp only [deleteUser]
        split <;> rfl

/-- Witness for C1 at a concrete oracle and concrete requests. -/
theorem unlock_called_exactly_once_witness :
    ((getUser (.ok ()) sampleDb ⟨1⟩).2.countP Event.isUnlock = 1) ∧
    ((updateUser (.ok ()) sampleDb ⟨1, "Jane", "jane@example.com", 31⟩).2.countP
        Event.isUnlock = 1) ∧
    ((deleteUser (.ok ()) sampleDb ⟨1⟩).2.countP Event.isUnlock = 1) :=
  unlock_called_exactly_once (.ok ()) sampleDb ⟨1⟩
    ⟨1, "Jane", "jane@example.com", 31⟩ ⟨1⟩ rfl

/-- C2: for every GetUser, UpdateUser and DeleteUser request, when lock
acquisition fails the handler returns an error and performs no storage
operation; when it succeeds, the lock acquisition is the first external event,
before any storage access. -/
theorem lock_acquired_before_storage
    (lock : LockOutcome) (db : DbOracle) (g : GetUserRequest)
    (u : UpdateUserRequest) (d : DeleteUserRequest) :
    (∀ e, lock = .error e →
      (getUser lock db g).1 = .error ("failed to acquire lock: " ++ e) ∧
      (getUser lock db g).2.countP Event.isStorage = 0 ∧
      (updateUser lock db u).1 = .error ("failed to acquire lock: " ++ e) ∧
      (updateUser lock db u).2.countP Event.isStorage = 0 ∧
      (deleteUser lock db d).1 = .error ("failed to acquire lock: " ++ e) ∧
      (deleteUser lock db d).2.countP Event.isStorage = 0) ∧
    (lock = .ok () →
      (getUser lock db g).2.head? = some (.lockOk g.id) ∧
      (updateUser lock db u).2.head? = some (.lockOk u.id) ∧
      (deleteUser lock db d).2.head? = some (.lockOk d.id)) := by
  rcases db with ⟨⟨execErr, ra, li⟩, qr, q⟩
  constructor
  · rintro e rfl
    exact ⟨rfl, rfl, rfl, rfl, rfl, rfl⟩
  · rintro rfl
    refine ⟨?_, ?_, ?_⟩
    · cases qr <;> rfl
    · cases execErr with
      | some e => rfl
      | none =>
        cases ra with
        | error e => rfl
        | ok num =>
          simp only [updateUser]
          split
          · rfl
          · cases qr <;> rfl
    · cases execErr with
      | some e => rfl
      | none =>
        cases ra with
        | error e => rfl
        | ok num =>
          simp only [deleteUser]
          split <;> rfl

/-- Witness for C2: a failed acquire aborts with the wrapped error and zero
storage events; a successful acquire locks before any storage access. -/
theorem lock_acquired_before_storage_witness :
    ((getUser (.error "redis: down") sampleDb ⟨1⟩).1 =
      .error ("failed to acquire lock: " ++ "redis: down") ∧
     (getUser (.error "redis: down") sampleDb ⟨1⟩).2.countP Event.isStorage = 0) ∧
    (getUser (.ok ()) sampleDb ⟨1⟩).2.head? = some (.lockOk 1) := by
  refine ⟨⟨?_, ?_⟩, ?_⟩
  · exact ((lock_acquired_before_storage (.error "redis: down") sampleDb ⟨1⟩
      ⟨1, "Jane", "jane@example.com", 31⟩ ⟨1⟩).1 "redis: down" rfl).1
  · exact ((lock_acquired_before_storage (.error "redis: down") sampleDb ⟨1⟩
      ⟨1, "Jane", "jane@example.com", 31⟩ ⟨1⟩).1 "redis: down" rfl).2.1
  · exact ((lock_acquired_before_storage (.ok ()) sampleDb ⟨1⟩
      ⟨1, "Jane", "jane@example.com", 31⟩ ⟨1⟩).2 rfl).1

/-- C3: for UpdateUser and DeleteUser, a statement that executes without error
but affects zero rows yields a nil error and a `Success = false`,
`"User not found"` response; a storage error yields a nil response and a
non-nil error; in the zero-rows case the caller never observes an error, so
the two outcomes are always distinguishable. -/
theorem zero_rows_is_not_found_not_error
    (lock : LockOutcome) (db : DbOracle)
    (u : UpdateUserRequest) (d : DeleteUserRequest) (h : lock = .ok ()) :
    (db.exec.execErr = none → db.exec.rowsAffected = .ok 0 →
      (updateUser lock db u).1 = .ok ⟨none, false, "User not found"⟩ ∧
      (deleteUser lock db d).1 = .ok ⟨false, "User not found"⟩ ∧
      (∀ e, (updateUser lock db u).1 ≠ .error e) ∧
      (∀ e, (deleteUser lock db d).1 ≠ .error e)) ∧
    (∀ e, db.exec.execErr = some e →
      (updateUser lock db u).1 = .error e ∧
      (deleteUser lock db d).1 = .error e) := by
  subst h
  rcases db with ⟨⟨execErr, ra, li⟩, qr, q⟩
  constructor
  · rintro rfl rfl
    refine ⟨rfl, rfl, ?_, ?_⟩ <;> intro e <;> simp [updateUser, deleteUser]
  · rintro e rfl
    exact ⟨rfl, rfl⟩

/-- Witness for C3 at a zero-rows oracle and an exec-failure oracle. -/
theorem zero_rows_is_not_found_not_error_witness :
    ((updateUser (.ok ()) zeroRowsDb ⟨999, "Jane", "jane@example.com", 31⟩).1 =
      .ok ⟨none, false, "User not found"⟩ ∧
     (deleteUser (.ok ()) zeroRowsDb ⟨999⟩).1 = .ok ⟨false, "User not found"⟩) ∧
    ((updateUser (.ok ()) execFailDb ⟨1, "Jane", "jane@example.com", 31⟩).1 =
      .error "database error" ∧
     (deleteUser (.ok ()) execFailDb ⟨1⟩).1 = .error "database error") := by
  refine ⟨⟨?_, ?_⟩, ?_⟩
  · exact ((zero_rows_is_not_found_not_error (.ok ()) zeroRowsDb
      ⟨999, "Jane", "jane@example.com", 31⟩ ⟨999⟩ rfl).1 rfl rfl).1
  · exact ((zero_rows_is_not_found_not_error (.ok ()) zeroRowsDb
      ⟨999, "Jane", "jane@example.com", 31⟩ ⟨999⟩ rfl).1 rfl rfl).2.1
  · exact (zero_rows_is_not_found_not_error (.ok ()) execFailDb
      ⟨1, "Jane", "jane@example.com", 31⟩ ⟨1⟩ rfl).2 "database error" rfl

/-- C6: CreateUser and ListUsers never invoke the distributed locker: their
traces contain no lock-acquisition and no unlock events; CreateUser performs
exactly one insert, and ListUsers performs exactly one read. -/
theorem create_list_never_lock
    (db : DbOracle) (now : String)
    (c : CreateUserRequest) (l : ListUsersRequest) :
    ((createUser db now c).2.countP Event.isLockCall = 0) ∧
    ((createUser db now c).2.countP Event.isUnlock = 0) ∧
    ((createUser db now c).2 = [.dbExec insertQuery]) ∧
    ((listUsers db l).2.countP Event.isLockCall = 0) ∧
    ((listUsers db l).2.countP Event.isUnlock = 0) ∧
    ((listUsers db l).2 = [.dbQuery selectAllQuery]) := by
  rcases db with ⟨⟨execErr, ra, li⟩, qr, q⟩
  refine ⟨?_, ?_, ?_, ?_, ?_, ?_⟩ <;>
    simp only [createUser, listUsers] <;>
    cases execErr <;> cases li <;> cases q <;>
    first
      | rfl
      | (rename_i rows; cases hs : scanRows rows <;>
          simp [hs, Event.isLockCall, Event.isUnlock])

/-- C7: an UpdateUser success response carries the user obtained by re-reading
the row after the write, while the lock is still held (the re-read precedes
the unlock in the trace); if the re-read fails — including the no-rows case —
the handler returns an error even though the update statement succeeded. -/
theorem update_read_after_write
    (lock : LockOutcome) (db : DbOracle) (u : UpdateUserRequest)
    (n : Int) (h : lock = .ok ()) (hx : db.exec.execErr = none)
    (hn : db.exec.rowsAffected = .ok n) (hnz : n ≠ 0) :
    (∀ usr, db.queryRow = .found usr →
      (updateUser lock db u).1 = .ok ⟨some usr, true, "User updated successfully"⟩ ∧
      (updateUser lock db u).2 =
        [.lockOk u.id, .dbExec updateQuery, .dbQueryRow selectOneQuery,
         .unlock u.id]) ∧
    (∀ e, db.queryRow = .scanErr e → (updateUser lock db u).1 = .error e) ∧
    (db.queryRow = .noRows → (updateUser lock db u).1 = .error sqlErrNoRows) := by
  subst h
  rcases db with ⟨⟨execErr, ra, li⟩, qr, q⟩
  cases hx
  cases hn
  refine ⟨?_, ?_, ?_⟩
  · rintro usr rfl
    exact ⟨by simp [updateUser, hnz], by simp [updateUser, hnz]⟩
  · rintro e rfl
    simp [updateUser, hnz]
  · rintro rfl
    simp [updateUser, hnz]

/-- Witness for C7 at a concrete all-success oracle. -/
theorem update_read_after_write_witness :
    (updateUser (.ok ()) sampleDb ⟨1, "Jane", "jane@example.com", 31⟩).1 =
      .ok ⟨some sampleUser, true, "User updated successfully"⟩ ∧
    (updateUser (.ok ()) sampleDb ⟨1, "Jane", "jane@example.com", 31⟩).2 =
      [.lockOk 1, .dbExec updateQuery, .dbQueryRow selectOneQuery, .unlock 1] :=
  (update_read_after_write (.ok ()) sampleDb ⟨1, "Jane", "jane@example.com", 31⟩
    1 rfl rfl rfl (by decide)).1 sampleUser rfl

/-- C8: every lock-acquisition failure is surfaced uniformly: for each of
GetUser, UpdateUser and DeleteUser the returned error is the single wrapper
`"failed to acquire lock: <cause>"`, whatever the underlying cause. -/
theorem lock_failure_uniform_error
    (lock : LockOutcome) (db : DbOracle) (g : GetUserRequest)
    (u : UpdateUserRequest) (d : DeleteUserRequest)
    (e : String) (h : lock = .error e) :
    (getUser lock db g).1 = .error ("failed to acquire lock: " ++ e) ∧
    (updateUser lock db u).1 = .error ("failed to acquire lock: " ++ e) ∧
    (deleteUser lock db d).1 = .error ("failed to acquire lock: " ++ e) := by
  subst h
  exact ⟨rfl, rfl, rfl⟩

/-- Witness for C8 with two distinct causes, showing the identical wrapper. -/
theorem lock_failure_uniform_error_witness :
    (getUser (.error "context deadline exceeded") sampleDb ⟨1⟩).1 =
      .error ("failed to acquire lock: " ++ "context deadline exceeded") ∧
    (updateUser (.error "connection refused") sampleDb
        ⟨1, "Jane", "jane@example.com", 31⟩).1 =
      .error ("failed to acquire lock: " ++ "connection refused") ∧
    (deleteUser (.error "connection refused") sampleDb ⟨1⟩).1 =
      .error ("failed to acquire lock: " ++ "connection refused") := by
  refine ⟨?_, ?_, ?_⟩
  · exact (lock_failure_uniform_error (.error "context deadline exceeded")
      sampleDb ⟨1⟩ ⟨1, "Jane", "jane@example.com", 31⟩ ⟨1⟩
      "context deadline exceeded" rfl).1
  · exact (lock_failure_uniform_error (.error "connection refused")
      sampleDb ⟨1⟩ ⟨1, "Jane", "jane@example.com", 31⟩ ⟨1⟩
      "connection refused" rfl).2.1
  · exact (lock_failure_uniform_error (.error "connection refused")
      sampleDb ⟨1⟩ ⟨1, "Jane", "jane@example.com", 31⟩ ⟨1⟩
      "connection refused" rfl).2.2

/-- C4: when both lock backends grant the lock, running a handler with the
Redis (Redsync) locker and with the etcd locker produces identical results —
the same response, error and handler-level trace; the handlers depend on the
driver only through the acquisition outcome. -/
theorem backend_equivalence
    (rb : RedsyncBackend) (eb : EtcdBackend) (db : DbOracle)
    (g : GetUserRequest) (u : UpdateUserRequest) (d : DeleteUserRequest)
    (hr : rb.lockCtx = .ok ()) (hs : eb.newSession = .ok ())
    (hm : eb.mutexLock = .ok ()) :
    getUser (redsyncLockUser rb g.id).1 db g =
      getUser (etcdLockUser eb g.id).1 db g ∧
    updateUser (redsyncLockUser rb u.id).1 db u =
      updateUser (etcdLockUser eb u.id).1 db u ∧
    deleteUser (redsyncLockUser rb d.id).1 db d =
      deleteUser (etcdLockUser eb d.id).1 db d := by
  have h1 : ∀ uid, (redsyncLockUser rb uid).1 = .ok () := by
    intro uid; simp [redsyncLockUser, hr]
  have h2 : ∀ uid, (etcdLockUser eb uid).1 = .ok () := by
    intro uid; simp [etcdLockUser, hs, hm]
  refine ⟨?_, ?_, ?_⟩ <;> rw [h1, h2]

/-- Witness for C4: the two drivers, both granting, give identical GetUser
results at a concrete oracle. -/
theorem backend_equivalence_witness :
    getUser (redsyncLockUser ⟨.ok ()⟩ 1).1 sampleDb ⟨1⟩ =
      getUser (etcdLockUser ⟨.ok (), .ok ()⟩ 1).1 sampleDb ⟨1⟩ :=
  (backend_equivalence ⟨.ok ()⟩ ⟨.ok (), .ok ()⟩ sampleDb ⟨1⟩
    ⟨1, "Jane", "jane@example.com", 31⟩ ⟨1⟩ rfl rfl rfl).1

/-- C5: in the etcd driver the session is strictly nested inside the lock
handle: a successful acquire creates the session and then takes the mutex;
release unlocks the mutex and then closes the session, in that order; and when
session creation succeeds but mutex acquisition fails, the session is closed
before the error is returned. -/
theorem etcd_session_nested_in_handle
    (b : EtcdBackend) (uid : Int) :
    etcdRelease uid = [.mutexUnlock (etcdLockKey uid), .sessionClose] ∧
    (b.newSession = .ok () → b.mutexLock = .ok () →
      etcdLockUser b uid =
        (.ok (), [.sessionCreateOk, .mutexLockOk (etcdLockKey uid)])) ∧
    (∀ e, b.newSession = .ok () → b.mutexLock = .error e →
      etcdLockUser b uid =
        (.error e,
         [.sessionCreateOk, .mutexLockFail (etcdLockKey uid), .sessionClose])) := by
  refine ⟨rfl, ?_, ?_⟩
  · intro h1 h2
    simp [etcdLockUser, h1, h2]
  · intro e h1 h2
    simp [etcdLockUser, h1, h2]

/-- Witness for C5 on the failed-mutex path at a concrete backend oracle. -/
theorem etcd_session_nested_in_handle_witness :
    etcdLockUser ⟨.ok (), .error "etcd: lock failed"⟩ 7 =
      (.error "etcd: lock failed",
       [.sessionCreateOk, .mutexLockFail (etcdLockKey 7), .sessionClose]) :=
  (etcd_session_nested_in_handle ⟨.ok (), .error "etcd: lock failed"⟩ 7).2.2
    "etcd: lock failed" rfl rfl

/-- C9 counterexample: with no caller deadline and a reachable backend whose
ping round-trip takes 10^9 ms, the Redis driver's HealthCheck returns a nil
error — it imposes no timeout of its own — while the etcd driver reports an
error at its own 2-second bound on the very same input. -/
theorem redsync_health_has_no_driver_timeout :
    redsyncHealthCheck none ⟨true, 1000000000⟩ = .ok () ∧
    etcdHealthCheck none ⟨true, 1000000000⟩ =
      .error "context deadline exceeded" := by
  constructor <;> rfl

/-- C9 amended: both HealthChecks return a non-nil error when the backend is
unreachable; the etcd driver imposes its own 2-second timeout (it errors
whenever the round-trip exceeds 2000 ms, whatever the caller's deadline); the
Redis driver imposes no timeout of its own — under a caller context with no
deadline it never reports a reachable backend as unhealthy, however slow the
round-trip. -/
theorem health_check_bounded
    (d : Option Nat) (b : Backend) :
    (b.reachable = false →
      redsyncHealthCheck d b = .error "connection refused" ∧
      etcdHealthCheck d b = .error "connection refused") ∧
    (b.reachable = true → b.latency > 2000 →
      etcdHealthCheck d b = .error "context deadline exceeded") ∧
    (b.reachable = true → redsyncHealthCheck none b = .ok ()) := by
  refine ⟨?_, ?_, ?_⟩
  · intro h
    constructor <;> simp [redsyncHealthCheck, etcdHealthCheck, roundTrip, h]
  · intro h hl
    cases d with
    | none =>
      simp [etcdHealthCheck, roundTrip, withTimeout, h, hl]
    | some x =>
      have hx : min x 2000 < b.latency :=
        lt_of_le_of_lt (min_le_right x 2000) hl
      simp [etcdHealthCheck, roundTrip, withTimeout, h, hx]
  · intro h
    simp [redsyncHealthCheck, roundTrip, h]

/-- Witness for C9's amended claim at concrete deadlines and backends. -/
theorem health_check_bounded_witness :
    (redsyncHealthCheck (some 50) ⟨false, 0⟩ = .error "connection refused" ∧
     etcdHealthCheck (some 50) ⟨false, 0⟩ = .error "connection refused") ∧
    etcdHealthCheck none ⟨true, 3000⟩ = .error "context deadline exceeded" ∧
    redsyncHealthCheck none ⟨true, 3000⟩ = .ok () := by
  refine ⟨?_, ?_, ?_⟩
  · exact (health_check_bounded (some 50) ⟨false, 0⟩).1 rfl
  · exact (health_check_bounded none ⟨true, 3000⟩).2.1 rfl (by decide)
  · exact (health_check_bounded none ⟨true, 3000⟩).2.2 rfl

/-- Scanning a row set in which every per-row scan succeeds yields exactly
those rows. -/
theorem scanRows_map_ok (rows : List User) :
    scanRows (rows.map Except.ok) = .ok rows := by
  induction rows with
  | nil => rfl
  | cons u rest ih => simp [scanRows, ih, Except.map]

/-- C10: ListUsers ignores the request's Page and Limit fields entirely — the
same oracle gives the same result for any two requests — and when the
unpaginated query succeeds the response contains every row with
`Total = int32(len(users))`. -/
theorem list_users_ignores_pagination
    (db : DbOracle) (r1 r2 : ListUsersRequest) (rows : List User)
    (hq : db.query = .ok (rows.map Except.ok)) :
    listUsers db r1 = listUsers db r2 ∧
    (listUsers db r1).1 =
      .ok ⟨rows, int32cast rows.length, true, "Users retrieved successfully"⟩ := by
  refine ⟨rfl, ?_⟩
  simp [listUsers, hq, scanRows_map_ok]

/-- Witness for C10 at a one-row oracle and two different paginations. -/
theorem list_users_ignores_pagination_witness :
    listUsers sampleDb ⟨1, 10⟩ = listUsers sampleDb ⟨2, 5⟩ ∧
    (listUsers sampleDb ⟨1, 10⟩).1 =
      .ok ⟨[sampleUser], int32cast [sampleUser].length, true,
           "Users retrieved successfully"⟩ :=
  list_users_ignores_pagination sampleDb ⟨1, 10⟩ ⟨2, 5⟩ [sampleUser] rfl

end GoGrpcServer
